import Mathlib

/-!
Shallow embedding of the newsletter curation pipeline
(`src/hackernews_scraping/curator.py`) and proofs about it.

Modelling conventions, chosen to mirror Python semantics exactly:
* Python numbers are modelled as `Int` (counts) and `ℚ` (ratios, scores,
  velocities).  `round(x, d)` is modelled by `pyRound` (round half away
  handled by Mathlib `round`, i.e. floor of `x + 1/2`); no verified claim
  depends on the behaviour at exact decimal ties.
* A dict field that may be missing or may be present with value `None` is
  modelled as `Option (Option _)`: `none` = key absent, `some none` = key
  present holding `None`, `some (some v)` = key present holding `v`.
  Fields for which absent and `None` are observationally identical in the
  source are collapsed to a single `Option _`.
* A Python statement that raises an uncaught exception is modelled by
  `Except.error`; the whole batch run `curate` therefore returns
  `Except String CurationOutput`.
* Python `list.sort(key=...)` is a stable ascending sort; it is modelled by
  `List.insertionSort` with the lexicographic `≤` on the key, which computes
  the same list (the stable sort by a total preorder is unique).
-/

/-- Lowercase a string character by character (`str.lower()` on the ASCII
inputs used by the pipeline). -/
def lowerStr (s : String) : String := ⟨s.data.map Char.toLower⟩

/-- Check that `needle` is a prefix of `hay` (character lists). -/
def leadsWith : List Char → List Char → Bool
  | [], _ => true
  | _ :: _, [] => false
  | a :: as, b :: bs => a == b && leadsWith as bs

/-- Check that `needle` occurs contiguously inside `hay` (character lists). -/
def occursInL (needle : List Char) : List Char → Bool
  | [] => needle.isEmpty
  | c :: rest => leadsWith needle (c :: rest) || occursInL needle rest

/-- Python substring containment `needle in hay`. -/
def occursIn (needle hay : String) : Bool := occursInL needle.data hay.data

/-- Python `round(x, d)` on the rational model: scale, round to the nearest
integer, unscale. -/
def pyRound (x : ℚ) (d : ℕ) : ℚ := ((round (x * 10 ^ d) : ℤ) : ℚ) / 10 ^ d

/-- External input record (the fields of the raw scraped dict that the
curation pipeline reads).  `title` and the two counters distinguish
"key absent" from "key present with None" because the source treats the two
differently on at least one path; `content` does not (the only read is
`(item.get("content") or "")`), so it is a single `Option`.  `published_at`
is the parsed timestamp in epoch seconds; `none` covers "absent, None or
unparsable", which the source collapses in one `except` arm. `kids_count`
is `metadata.get("kids_count", 0)` with `none` covering "metadata absent,
key absent or None" (all falsy paths of `if kids`). -/
structure ContentRecord where
  title : Option (Option String)
  content : Option String
  impressions_likes : Option (Option Int)
  impressions_replies : Option (Option Int)
  kids_count : Option Int
  published_at : Option ℚ
deriving DecidableEq, Inhabited

/-- Per-topic score entry (value of `topic_scores[topic_id]`). -/
structure TopicScore where
  raw_score : ℕ
  weighted_score : ℚ
  matched_keywords : List String
  label : String
deriving DecidableEq, Inhabited

/-- Result of `classify_item`.  The two noise-shaped dicts of the source
lack the `primary_topic_label` / `topic_details` keys; they are modelled as
`none` / `[]` here. -/
structure Classification where
  is_ai_relevant : Bool
  primary_topic : Option String
  primary_topic_label : Option String
  all_topics : List String
  topic_details : List (String × TopicScore)
  relevance_score : ℚ
  is_noise : Bool
  filter_reason : Option String
deriving DecidableEq, Inhabited

/-- Result of `calculate_engagement_quality`.  All numeric fields carry the
rounded presentation values exactly as the returned dict does. -/
structure EngagementQuality where
  engagement_ratio : ℚ
  is_flamewar : Bool
  is_high_signal : Bool
  is_emerging : Bool
  discussion_depth : ℚ
  velocity : ℚ
  hours_old : ℚ
  quality_tier : String
deriving DecidableEq, Inhabited

/-- Result of `generate_editorial`. -/
structure EditorialContent where
  one_liner : String
  why_it_matters : String
  audience_fit : String
  newsletter_priority : Int
deriving DecidableEq, Inhabited

/-- A surviving record together with its three analysis layers
(`{**item, "classification": ..., "engagement_quality": ..., "editorial": ...}`). -/
structure CuratedItem where
  record : ContentRecord
  classification : Classification
  engagement_quality : EngagementQuality
  editorial : EditorialContent
deriving DecidableEq, Inhabited

/-- Minimal `{title, reason}` entry of a `filtered_out` bucket.  The source
builds the `flamewar` and `low_relevance` entries without a `"reason"` key;
those entries carry `reason := none`. -/
structure FilteredEntry where
  title : Option String
  reason : Option String
deriving DecidableEq, Inhabited

/-- The four `filtered_out` buckets. -/
structure FilteredOut where
  noise : List FilteredEntry
  low_relevance : List FilteredEntry
  flamewar : List FilteredEntry
  low_quality_hidden : List FilteredEntry
deriving DecidableEq, Inhabited

/-- Orchestrator configuration (`NewsletterCurator.__init__`).  The verified
claims quantify over non-negative sizes, hence `ℕ`. -/
structure CurationConfig where
  min_relevance : ℚ
  pool_size : ℕ
  publish_count : ℕ
deriving DecidableEq, Inhabited

/-- The `stats` block of the output document. -/
structure CurationStats where
  input_items : ℕ
  pool_items : ℕ
  published_items : ℕ
  filtered_noise : ℕ
  filtered_low_relevance : ℕ
  filtered_flamewar : ℕ
  filtered_low_quality : ℕ
  themes : List (String × ℕ)
deriving DecidableEq, Inhabited

/-- The assembled output document of `NewsletterCurator.curate`. -/
structure CurationOutput where
  schema_version : String
  curated_at : String
  source : String
  curation_config : CurationConfig
  stats : CurationStats
  themes : List (String × List CuratedItem)
  published_items : List CuratedItem
  pool_items : List CuratedItem
  filtered_out : FilteredOut
deriving DecidableEq, Inhabited

/-- Keyword set, weight and display label of one topic (`AI_TOPICS` values). -/
structure TopicData where
  keywords : List String
  weight : ℚ
  label : String
deriving DecidableEq, Inhabited

/-- The static topic taxonomy, in source order (Python dicts preserve
insertion order).  Each entry is `(topic id, ⟨keywords, weight, label⟩)`. -/
def AI_TOPICS : List (String × TopicData) := [
  ("llm", ⟨["llm", "gpt", "claude", "gemini", "openai", "anthropic", "deepseek",
            "language model", "chatgpt", "transformer", "llama", "mistral", "phi-3",
            "copilot", "cursor", "coding agent", "ai agent", "agentic"],
           1, "Large Language Models"⟩),
  ("ml_research", ⟨["neural network", "deep learning", "machine learning", "training",
            "inference", "model", "benchmark", "fine-tuning", "rlhf", "reasoning",
            "diffusion", "attention", "embedding", "vector"],
           0.9, "ML Research"⟩),
  ("ai_product", ⟨["ai-powered", "ai app", "ai startup", "ai tool", "ai api",
            "generative ai", "ai feature", "ai integration"],
           0.85, "AI Products"⟩),
  ("ai_infra", ⟨["gpu", "cuda", "tpu", "nvidia", "h100", "inference server",
            "model serving", "vllm", "triton", "onnx", "tensorrt"],
           0.9, "AI Infrastructure"⟩),
  ("ai_ethics", ⟨["ai safety", "alignment", "hallucination", "bias", "regulation",
            "ai policy", "ai governance", "responsible ai"],
           0.8, "AI Ethics & Safety"⟩),
  ("developer_tools", ⟨["developer", "devtools", "ide", "vscode", "programming", "coding",
            "software engineering", "api", "sdk", "framework", "library"],
           0.6, "Developer Tools"⟩),
  ("tech_industry", ⟨["startup", "funding", "acquisition", "layoff", "hiring",
            "tech company", "silicon valley", "yc", "vc", "series a"],
           0.5, "Tech Industry"⟩),
  ("data_engineering", ⟨["database", "sql", "postgres", "data pipeline", "etl",
            "data warehouse", "analytics", "bigquery", "snowflake"],
           0.5, "Data Engineering"⟩)]

/-- Noise keyword phrases, in source order. -/
def NOISE_KEYWORDS : List String :=
  ["sleep in lax", "where to sleep", "music club", "diy music",
   "linguistics", "passive voice", "grammar", "heating homes",
   "weather satellite", "cancer treatment", "drug trial",
   "wifi only works", "curved things", "board games"]

/-- Lowercased title in `classify_item`: `(item.get("title") or "").lower()`.
Both "absent" and "present None" (and the empty string) collapse to `""`. -/
def classifyTitle (item : ContentRecord) : String :=
  lowerStr ((item.title.getD none).getD "")

/-- Lowercased body in `classify_item`: `(item.get("content") or "").lower()`. -/
def classifyContent (item : ContentRecord) : String :=
  lowerStr (item.content.getD "")

/-- The combined text `f"{title} {content}"` scanned by `classify_item`. -/
def classifyText (item : ContentRecord) : String :=
  classifyTitle item ++ " " ++ classifyContent item

/-- First configured noise keyword occurring in the combined text, if any
(the source loop returns on the first hit). -/
def noiseHit (item : ContentRecord) : Option String :=
  NOISE_KEYWORDS.find? (fun kw => occursIn (lowerStr kw) (classifyText item))

/-- The noise-shaped classification dict returned by both early exits of
`classify_item`. -/
def noiseClassification (reason : String) : Classification :=
  { is_ai_relevant := false, primary_topic := none, primary_topic_label := none,
    all_topics := [], topic_details := [], relevance_score := 0,
    is_noise := true, filter_reason := some reason }

/-- Per-topic scoring loop of `classify_item`: keyword present in the text
scores 2 when it also occurs in the title, else 1; topics with zero matches
are dropped. -/
def topicScoresOf (item : ContentRecord) : List (String × TopicScore) :=
  AI_TOPICS.filterMap (fun p =>
    let matched := p.2.keywords.filter (fun kw => occursIn (lowerStr kw) (classifyText item))
    let score : ℕ := (matched.map (fun kw =>
      if occursIn (lowerStr kw) (classifyTitle item) then 2 else 1)).sum
    if score > 0 then
      some (p.1, { raw_score := score, weighted_score := (score : ℚ) * p.2.weight,
                   matched_keywords := matched, label := p.2.label })
    else none)

/-- Python `max(items, key=...)`: the first element attaining the maximal
weighted score wins ties. -/
def maxByWeighted : (String × TopicScore) → List (String × TopicScore) → (String × TopicScore)
  | best, [] => best
  | best, x :: rest =>
    maxByWeighted (if x.2.weighted_score > best.2.weighted_score then x else best) rest

/-- Embedding of `classify_item`. -/
def classify_item (item : ContentRecord) : Classification :=
  match noiseHit item with
  | some kw => noiseClassification ("noise_keyword: " ++ kw)
  | none =>
    match topicScoresOf item with
    | [] => noiseClassification "no_ai_keywords_matched"
    | p :: rest =>
      let primary := maxByWeighted p rest
      let total : ℚ := ((p :: rest).map (fun q => q.2.weighted_score)).sum
      let relevance : ℚ := min (total / 10) 1
      { is_ai_relevant := true,
        primary_topic := some primary.1,
        primary_topic_label := some primary.2.label,
        all_topics := (p :: rest).map Prod.fst,
        topic_details := p :: rest,
        relevance_score := pyRound relevance 2,
        is_noise := false, filter_reason := none }

/-- Python `item.get(key, 0) or 0` on an int field: absent, `None` and `0`
all become `0`. -/
def pyIntField (f : Option (Option Int)) : Int := (f.getD (some 0)).getD 0

/-- Likes count as read by `calculate_engagement_quality`. -/
def pyLikes (item : ContentRecord) : Int := pyIntField item.impressions_likes

/-- Replies count as read by `calculate_engagement_quality`. -/
def pyReplies (item : ContentRecord) : Int := pyIntField item.impressions_replies

/-- Unrounded `engagement_ratio = replies / max(likes, 1)`. -/
def rawEngagementRatio (item : ContentRecord) : ℚ :=
  (pyReplies item : ℚ) / ((max (pyLikes item) 1 : ℤ) : ℚ)

/-- Flag `is_flamewar = engagement_ratio > 1.5 and replies > 100`. -/
def isFlamewarOf (item : ContentRecord) : Bool :=
  decide (rawEngagementRatio item > 1.5 ∧ pyReplies item > 100)

/-- Flag `is_high_signal = likes > 200 and engagement_ratio < 0.5`. -/
def isHighSignalOf (item : ContentRecord) : Bool :=
  decide (pyLikes item > 200 ∧ rawEngagementRatio item < 0.5)

/-- Flag `is_emerging = likes > 50 and likes < 200 and engagement_ratio < 0.8`. -/
def isEmergingOf (item : ContentRecord) : Bool :=
  decide (pyLikes item > 50 ∧ pyLikes item < 200 ∧ rawEngagementRatio item < 0.8)

/-- Unrounded `discussion_depth = replies / max(kids, 1) if kids else 1`. -/
def rawDiscussionDepth (item : ContentRecord) : ℚ :=
  match item.kids_count with
  | some k => if k ≠ 0 then (pyReplies item : ℚ) / ((max k 1 : ℤ) : ℚ) else 1
  | none => 1

/-- Unrounded hours since publication; the fail-soft default is 24. -/
def rawHoursOld (item : ContentRecord) (now : ℚ) : ℚ :=
  match item.published_at with
  | some p => (now - p) / 3600
  | none => 24

/-- Unrounded `velocity = likes / max(hours_old, 1)`; the fail-soft default
is 0. -/
def rawVelocity (item : ContentRecord) (now : ℚ) : ℚ :=
  match item.published_at with
  | some p => (pyLikes item : ℚ) / max ((now - p) / 3600) 1
  | none => 0

/-- Embedding of `_calculate_quality_tier` (evaluated on unrounded inputs). -/
def calculate_quality_tier (likes : Int) (ratio : ℚ) (is_flamewar : Bool)
    (velocity : ℚ) : String :=
  if is_flamewar then "skip_flamewar"
  else if velocity > 20 ∧ likes > 100 then "trending_must_include"
  else if likes > 300 ∧ ratio < 0.6 then "high_quality"
  else if likes > 100 then "good"
  else if likes > 30 then "moderate"
  else "low"

/-- Embedding of `calculate_engagement_quality`; `now` is the wall-clock
reference (`datetime.now()` in epoch seconds). -/
def calculate_engagement_quality (item : ContentRecord) (now : ℚ) : EngagementQuality :=
  { engagement_ratio := pyRound (rawEngagementRatio item) 2,
    is_flamewar := isFlamewarOf item,
    is_high_signal := isHighSignalOf item,
    is_emerging := isEmergingOf item,
    discussion_depth := pyRound (rawDiscussionDepth item) 2,
    velocity := pyRound (rawVelocity item now) 2,
    hours_old := pyRound (rawHoursOld item now) 1,
    quality_tier := calculate_quality_tier (pyLikes item) (rawEngagementRatio item)
      (isFlamewarOf item) (rawVelocity item now) }

/-- Decision table of quality tiers exactly as worded in the specification
(strict priority order, first match wins).  Kept separate from
`calculate_quality_tier` so that agreement of code and spec is a theorem,
not a definition. -/
def qualityTierSpec (likes : Int) (engagement_ratio : ℚ) (is_flamewar : Bool)
    (velocity : ℚ) : String :=
  if is_flamewar then "skip_flamewar"
  else if velocity > 20 ∧ likes > 100 then "trending_must_include"
  else if likes > 300 ∧ engagement_ratio < 0.6 then "high_quality"
  else if likes > 100 then "good"
  else if likes > 30 then "moderate"
  else "low"

/-- Embedding of `_generate_one_liner`.  Python calls `title.lower()`, which
raises `AttributeError` when the title key is present holding `None`
(`item.get("title", "")` does not replace a present `None`). -/
def generate_one_liner (title : Option String) (topic : String) : Except String String :=
  match title with
  | none => .error "AttributeError"
  | some t =>
    let title_lower := lowerStr t
    let tl := lowerStr topic
    if occursIn "show hn" title_lower then
      .ok ("New " ++ tl ++ " project worth checking out")
    else if occursIn "launch hn" title_lower then
      .ok ("YC startup launching in " ++ tl ++ " space")
    else if occursIn "ask hn" title_lower then
      .ok ("Community discussion on " ++ tl)
    else if ["benchmark", "comparison", "vs"].any (fun x => occursIn x title_lower) then
      .ok ("Performance/comparison data for " ++ tl)
    else if ["raises", "funding", "acquisition"].any (fun x => occursIn x title_lower) then
      .ok ("Industry news: funding/M&A in " ++ tl)
    else if ["release", "announce", "introducing"].any (fun x => occursIn x title_lower) then
      .ok ("New release or announcement in " ++ tl)
    else if ["tutorial", "guide", "how to"].any (fun x => occursIn x title_lower) then
      .ok ("Learning resource for " ++ tl)
    else .ok (topic ++ " insight worth reading")

/-- Signal-phrase assembly of `_generate_why_matters`, given a successfully
read likes value. -/
def whyMattersSignals (likes : Int) (c : Classification) (e : EngagementQuality) : String :=
  let primary := c.primary_topic.getD ""
  let signals : List String :=
    (if e.velocity > 20 then ["rapidly gaining attention"] else []) ++
    (if likes > 300 then ["highly upvoted by HN community"] else []) ++
    (if e.is_high_signal then ["quality discussion"] else []) ++
    (if occursIn "llm" primary || occursIn "ml_research" primary then
      ["directly relevant to AI practitioners"] else []) ++
    (if occursIn "ai_infra" primary then
      ["infrastructure implications for AI deployment"] else []) ++
    (if occursIn "ai_product" primary then ["commercial AI application"] else [])
  let signals := if signals.isEmpty then ["worth monitoring"] else signals
  String.intercalate "; " (signals.take 2)

/-- Embedding of `_generate_why_matters`.  The source reads
`item.get("impressions_likes", 0)` without the `or 0` guard used by
`calculate_engagement_quality`; a present `None` then raises `TypeError`
at the comparison `likes > 300`. -/
def generate_why_matters (item : ContentRecord) (c : Classification)
    (e : EngagementQuality) : Except String String :=
  match item.impressions_likes with
  | some none => .error "TypeError"
  | some (some n) => .ok (whyMattersSignals n c e)
  | none => .ok (whyMattersSignals 0 c e)

/-- Embedding of `_determine_audience`. -/
def determine_audience (c : Classification) : String :=
  let topic := c.primary_topic.getD ""
  if topic = "llm" ∨ topic = "ml_research" then "AI engineers & researchers"
  else if topic = "ai_infra" then "ML platform engineers"
  else if topic = "ai_product" then "Product managers & founders"
  else if topic = "ai_ethics" then "AI policy & safety researchers"
  else if topic = "developer_tools" then "Software developers"
  else if topic = "tech_industry" then "Tech industry watchers"
  else "General tech audience"

/-- Embedding of `_calculate_priority`. -/
def calculate_priority (c : Classification) (e : EngagementQuality) : Int :=
  let relevance := c.relevance_score
  let quality := e.quality_tier
  if quality = "trending_must_include" ∧ relevance > 0.6 then 1
  else if quality = "high_quality" ∧ relevance > 0.5 then 2
  else if quality = "good" ∨ quality = "high_quality" then 3
  else if relevance > 0.3 then 4
  else 5

/-- Title as read by `generate_editorial` (`item.get("title", "")`): absent
becomes `""`, but a present `None` stays `None`. -/
def editorialTitle (item : ContentRecord) : Option String := item.title.getD (some "")

/-- Embedding of `generate_editorial`; the one-liner is computed before the
why-it-matters text, matching the order in which the source can raise. -/
def generate_editorial (item : ContentRecord) (c : Classification)
    (e : EngagementQuality) : Except String EditorialContent :=
  match generate_one_liner (editorialTitle item) (c.primary_topic_label.getD "Tech") with
  | .error msg => .error msg
  | .ok ol =>
    match generate_why_matters item c e with
    | .error msg => .error msg
    | .ok wm =>
      .ok { one_liner := ol, why_it_matters := wm,
            audience_fit := determine_audience c,
            newsletter_priority := calculate_priority c e }

/-- Primary topic of a curated item as read by the orchestrator
(`item.get("classification", {}).get("primary_topic", "other")`). -/
def topicOf (item : CuratedItem) : String :=
  item.classification.primary_topic.getD "other"

/-- Newsletter section for a topic id (`group_by_theme` mapping). -/
def themeLabel (topic : String) : String :=
  if topic = "llm" ∨ topic = "ml_research" then "🤖 AI & LLMs"
  else if topic = "ai_infra" then "🔧 AI Infrastructure"
  else if topic = "ai_product" then "📱 AI Products & Startups"
  else if topic = "ai_ethics" then "⚖️ AI Ethics & Policy"
  else if topic = "developer_tools" then "💻 Developer Tools"
  else if topic = "tech_industry" then "📰 Tech Industry News"
  else "📌 Other Notable"

/-- Append an item to the list bound to `k`, preserving dict insertion
order; a new key is appended at the end (`defaultdict(list)` semantics). -/
def assocAppend : List (String × List CuratedItem) → String → CuratedItem →
    List (String × List CuratedItem)
  | [], k, it => [(k, [it])]
  | p :: rest, k, it =>
    if p.1 = k then (p.1, p.2 ++ [it]) :: rest else p :: assocAppend rest k it

/-- Stable ordering on newsletter priority used inside each theme bucket. -/
def prioLE (a b : CuratedItem) : Prop :=
  a.editorial.newsletter_priority ≤ b.editorial.newsletter_priority

instance : DecidableRel prioLE := fun a b => by
  unfold prioLE; infer_instance

instance : IsTotal CuratedItem prioLE :=
  ⟨fun a b => le_total a.editorial.newsletter_priority b.editorial.newsletter_priority⟩

instance : IsTrans CuratedItem prioLE :=
  ⟨fun _ _ _ h h2 => le_trans h h2⟩

/-- Embedding of `group_by_theme`: bucket by section label in encounter
order, then stably sort each bucket by `newsletter_priority`. -/
def group_by_theme (items : List CuratedItem) : List (String × List CuratedItem) :=
  (items.foldl (fun acc it => assocAppend acc (themeLabel (topicOf it)) it) []).map
    (fun p => (p.1, List.insertionSort prioLE p.2))

/-- Embedding of the orchestrator sort key
`(tier, priority, -velocity * discussion_depth)`;
`velocity` and `discussion_depth` are the rounded dict values. -/
def sort_key (item : CuratedItem) : ℕ × Int × ℚ :=
  (if item.engagement_quality.quality_tier = "trending_must_include" then 0 else 1,
   item.editorial.newsletter_priority,
   -(item.engagement_quality.velocity * item.engagement_quality.discussion_depth))

/-- Lexicographic comparison of sort keys: the relation by which Python
ascending-sorts the curated list. -/
def keyLE (a b : CuratedItem) : Prop :=
  (sort_key a).1 < (sort_key b).1 ∨
    ((sort_key a).1 = (sort_key b).1 ∧
      ((sort_key a).2.1 < (sort_key b).2.1 ∨
        ((sort_key a).2.1 = (sort_key b).2.1 ∧ (sort_key a).2.2 ≤ (sort_key b).2.2)))

instance : DecidableRel keyLE := fun a b => by
  unfold keyLE; infer_instance

instance : IsTotal CuratedItem keyLE := ⟨by
  intro a b
  unfold keyLE
  rcases lt_trichotomy (sort_key a).1 (sort_key b).1 with h | h | h
  · exact Or.inl (Or.inl h)
  · rcases lt_trichotomy (sort_key a).2.1 (sort_key b).2.1 with h2 | h2 | h2
    · exact Or.inl (Or.inr ⟨h, Or.inl h2⟩)
    · rcases le_total (sort_key a).2.2 (sort_key b).2.2 with h3 | h3
      · exact Or.inl (Or.inr ⟨h, Or.inr ⟨h2, h3⟩⟩)
      · exact Or.inr (Or.inr ⟨h.symm, Or.inr ⟨h2.symm, h3⟩⟩)
    · exact Or.inr (Or.inr ⟨h.symm, Or.inl h2⟩)
  · exact Or.inr (Or.inl h)⟩

instance : IsTrans CuratedItem keyLE := ⟨by
  intro a b c hab hbc
  unfold keyLE at *
  rcases hab with h1 | ⟨e1, h1⟩
  · rcases hbc with h2 | ⟨e2, _⟩
    · exact Or.inl (lt_trans h1 h2)
    · exact Or.inl (e2 ▸ h1)
  · rcases hbc with h2 | ⟨e2, h2⟩
    · exact Or.inl (e1 ▸ h2)
    · refine Or.inr ⟨e1.trans e2, ?_⟩
      rcases h1 with h1 | ⟨f1, h1⟩
      · rcases h2 with h2 | ⟨f2, _⟩
        · exact Or.inl (lt_trans h1 h2)
        · exact Or.inl (f2 ▸ h1)
      · rcases h2 with h2 | ⟨f2, h2⟩
        · exact Or.inl (f1 ▸ h2)
        · exact Or.inr ⟨f1.trans f2, le_trans h1 h2⟩⟩

/-- Title as stored into a filtered bucket (`item.get("title")`). -/
def pyGetTitle (item : ContentRecord) : Option String := item.title.getD none

/-- Running per-topic counter lookup (`theme_counts.get(topic, 0)`). -/
def lookupCount (counts : List (String × ℕ)) (k : String) : ℕ :=
  match counts.find? (fun p => p.1 = k) with
  | some p => p.2
  | none => 0

/-- Running per-topic counter increment (`theme_counts[topic] += 1`). -/
def incrCount : List (String × ℕ) → String → List (String × ℕ)
  | [], k => [(k, 1)]
  | p :: rest, k =>
    if p.1 = k then (p.1, p.2 + 1) :: rest else p :: incrCount rest k

/-- Deterministic rendering of a rational for diagnostic strings (stands in
for the fixed-point float formatting of the source; no verified claim
depends on the exact digits). -/
def fmtQ (q : ℚ) : String := toString q.num ++ "/" ++ toString q.den

/-- Diagnostic reason recorded for a hidden low-quality item. -/
def lowQualityReason (hours_old : ℚ) (topic : String) (cnt : ℕ) : String :=
  "low_quality, " ++ fmtQ hours_old ++ "h old, topic \x27" ++ topic ++ "\x27 has "
    ++ toString cnt ++ " items"

/-- Publish-selection scan over the pool.  `n` is the number of items
already published (`len(published)`), `counts` the running per-topic
counters.  A low-tier item is hidden unless it is fresh (`hours_old < 4`)
or fills a thematic gap (counter still 0); every admission is followed by
the `len(published) >= publish_count` break check of the source. -/
def publishScan (pc : ℕ) : List CuratedItem → ℕ → List (String × ℕ) →
    List CuratedItem × List FilteredEntry
  | [], _, _ => ([], [])
  | item :: rest, n, counts =>
    let quality := item.engagement_quality.quality_tier
    let hours_old := item.engagement_quality.hours_old
    let topic := topicOf item
    if quality = "low" ∧ ¬(hours_old < 4 ∨ lookupCount counts topic = 0) then
      let res := publishScan pc rest n counts
      (res.1, { title := pyGetTitle item.record,
                reason := some (lowQualityReason hours_old topic (lookupCount counts topic)) }
        :: res.2)
    else if n + 1 ≥ pc then ([item], [])
    else
      let res := publishScan pc rest (n + 1) (incrCount counts topic)
      (item :: res.1, res.2)

/-- Record-by-record funnel of `NewsletterCurator.curate` (steps 1-6):
classify, bucket noise, analyze engagement, bucket flamewars, bucket low
relevance, synthesize editorial.  Returns the surviving curated items and
the noise / low-relevance / flamewar buckets, all in input order; an
uncaught per-record exception aborts the whole batch. -/
def processRecords (cfg : CurationConfig) (now : ℚ) :
    List ContentRecord →
    Except String (List CuratedItem × List FilteredEntry × List FilteredEntry × List FilteredEntry)
  | [] => .ok ([], [], [], [])
  | r :: rest =>
    let c := classify_item r
    if c.is_noise then
      match processRecords cfg now rest with
      | .error e => .error e
      | .ok (cur, ns, lr, fw) =>
        .ok (cur, { title := pyGetTitle r, reason := c.filter_reason } :: ns, lr, fw)
    else
      let e := calculate_engagement_quality r now
      if e.quality_tier = "skip_flamewar" then
        match processRecords cfg now rest with
        | .error er => .error er
        | .ok (cur, ns, lr, fw) =>
          .ok (cur, ns, lr, { title := pyGetTitle r, reason := none } :: fw)
      else if c.relevance_score < cfg.min_relevance then
        match processRecords cfg now rest with
        | .error er => .error er
        | .ok (cur, ns, lr, fw) =>
          .ok (cur, ns, { title := pyGetTitle r, reason := none } :: lr, fw)
      else
        match generate_editorial r c e with
        | .error msg => .error msg
        | .ok ed =>
          match processRecords cfg now rest with
          | .error er => .error er
          | .ok (cur, ns, lr, fw) =>
            .ok ({ record := r, classification := c, engagement_quality := e,
                   editorial := ed } :: cur, ns, lr, fw)

/-- Assembly of the output document from the funnel results (the tail of
`NewsletterCurator.curate`): global stable sort, pool cut, publish scan,
theme grouping, stats. -/
def assembleOutput (input_len : ℕ) (cfg : CurationConfig) (curated_at : String)
    (curated : List CuratedItem) (fo_noise fo_lowrel fo_flame : List FilteredEntry) :
    CurationOutput :=
  let sortedC := List.insertionSort keyLE curated
  let pool := sortedC.take cfg.pool_size
  let scan := publishScan cfg.publish_count pool 0 []
  let published := scan.1
  let fo_lowq := scan.2
  let themes := group_by_theme published
  { schema_version := "3.1", curated_at := curated_at, source := "hackernews",
    curation_config := cfg,
    stats := { input_items := input_len,
               pool_items := pool.length,
               published_items := published.length,
               filtered_noise := fo_noise.length,
               filtered_low_relevance := fo_lowrel.length,
               filtered_flamewar := fo_flame.length,
               filtered_low_quality := fo_lowq.length,
               themes := themes.map (fun p => (p.1, p.2.length)) },
    themes := themes,
    published_items := published,
    pool_items := pool,
    filtered_out := { noise := fo_noise, low_relevance := fo_lowrel,
                      flamewar := fo_flame, low_quality_hidden := fo_lowq } }

/-- Embedding of `NewsletterCurator.curate`.  `now` is the wall-clock used
for engagement ages, `curated_at` the ISO timestamp written into the
output header. -/
def curate (raw_items : List ContentRecord) (cfg : CurationConfig) (now : ℚ)
    (curated_at : String) : Except String CurationOutput :=
  match processRecords cfg now raw_items with
  | .error e => .error e
  | .ok (curated, fo_noise, fo_lowrel, fo_flame) =>
    .ok (assembleOutput raw_items.length cfg curated_at curated fo_noise fo_lowrel fo_flame)

/-- Blank out the `curated_at` header field, leaving every other output
field intact. -/
def eraseTs : Except String CurationOutput → Except String CurationOutput
  | .error e => .error e
  | .ok o => .ok { o with curated_at := "" }

instance : DecidableEq (Except String CurationOutput) := fun a b =>
  match a, b with
  | .error x, .error y =>
    if h : x = y then .isTrue (by rw [h]) else .isFalse (fun hh => h (by injection hh))
  | .ok x, .ok y =>
    if h : x = y then .isTrue (by rw [h]) else .isFalse (fun hh => h (by injection hh))
  | .error _, .ok _ => .isFalse (fun hh => by injection hh)
  | .ok _, .error _ => .isFalse (fun hh => by injection hh)

/-- C1 witness: a record whose text holds the noise phrase "grammar" and
the strong AI keyword "gpt" is still classified as noise. -/
def c1rec : ContentRecord :=
  { title := some (some "New grammar rules for GPT chat"), content := none,
    impressions_likes := some (some 500), impressions_replies := some (some 10),
    kids_count := none, published_at := none }

/-- C6 witness record: matches the llm topic twice in the title. -/
def c6rec : ContentRecord :=
  { title := some (some "Benchmarking GPT-4 and Claude"), content := none,
    impressions_likes := some (some 350), impressions_replies := some (some 80),
    kids_count := none, published_at := none }

/-- C8 failing input: the llm-matching record whose `impressions_likes` key
is present holding `None`. -/
def c8badrec : ContentRecord :=
  { title := some (some "gpt gpt gpt"), content := none,
    impressions_likes := some none, impressions_replies := none,
    kids_count := none, published_at := none }

/-- C8 companion record: identical but with the likes key absent, which the
funnel defaults to 0 and processes normally. -/
def c8okrec : ContentRecord :=
  { title := some (some "gpt gpt gpt"), content := none,
    impressions_likes := none, impressions_replies := none,
    kids_count := none, published_at := none }

/-- C8 output of the healthy run. -/
def c8out : CurationOutput :=
  ((curate [c8okrec] ⟨1/5, 25, 8⟩ 0 "ts").toOption).getD default

/-- C5 witness input: a single well-engaged llm record. -/
def c5rec : ContentRecord :=
  { title := some (some "gpt gpt gpt"), content := none,
    impressions_likes := some (some 200), impressions_replies := some (some 10),
    kids_count := none, published_at := none }

/-- C5 witness output of the default-sized run. -/
def c5wout : CurationOutput :=
  ((curate [c5rec] ⟨1/5, 25, 8⟩ 0 "ts").toOption).getD default

/-- C5 counterexample output: the run configured with `publish_count = 0`. -/
def c5zout : CurationOutput :=
  ((curate [c5rec] ⟨1/5, 25, 0⟩ 0 "ts").toOption).getD default

/-- C9 counterexample input: a flamewar-shaped llm record. -/
def c9rec : ContentRecord :=
  { title := some (some "gpt debate"), content := none,
    impressions_likes := some (some 10), impressions_replies := some (some 200),
    kids_count := none, published_at := none }

/-- C9 counterexample output. -/
def c9out : CurationOutput :=
  ((curate [c9rec] ⟨1/5, 25, 8⟩ 0 "ts").toOption).getD default

/-- C9 witness batch: populates all four buckets plus one published item. -/
def c9wrecs : List ContentRecord :=
  [c1rec, c9rec,
   { title := some (some "weekly news roundup"), content := some "startup",
     impressions_likes := some (some 5), impressions_replies := none,
     kids_count := none, published_at := none },
   c8okrec, c8okrec]

/-- C9 witness output. -/
def c9wout : CurationOutput :=
  ((curate c9wrecs ⟨1/5, 25, 8⟩ 0 "ts").toOption).getD default

/-- C4 witness item: a stale low-tier llm item. -/
def c4item : CuratedItem :=
  { record := c8okrec,
    classification := { (default : Classification) with primary_topic := some "llm" },
    engagement_quality :=
      { (default : EngagementQuality) with quality_tier := "low", hours_old := 24 },
    editorial := default }

/-- C3 witness input and output: two surviving records. -/
def c3recs : List ContentRecord := [c5rec, c6rec]

/-- C3 witness output. -/
def c3out : CurationOutput :=
  ((curate c3recs ⟨1/5, 25, 8⟩ 0 "ts").toOption).getD default

/-- C10 strict-drop example output: two survivors, pool of one. -/
def c10out : CurationOutput :=
  ((curate [c5rec, c5rec] ⟨1/5, 1, 8⟩ 0 "ts").toOption).getD default

/-- C10 witness output for the universally quantified part. -/
def c10wout : CurationOutput :=
  ((curate [c5rec, c6rec] ⟨1/5, 25, 8⟩ 0 "ts").toOption).getD default

section Verification

attribute [local semireducible] Rat.add Rat.mul Rat.sub Rat.inv Rat.ofScientific

/-- Helper: a successful `find?` splits the list at the first hit. -/
theorem find?_eq_some_split {α : Type} {p : α → Bool} :
    ∀ {l : List α} {a : α}, l.find? p = some a →
      ∃ l1 l2, l = l1 ++ a :: l2 ∧ p a = true ∧ ∀ b ∈ l1, p b = false := by
  intro l
  induction l with
  | nil => intro a h; simp [List.find?] at h
  | cons x xs ih =>
    intro a h
    cases hx : p x with
    | true =>
      rw [List.find?_cons_of_pos _ hx] at h
      cases h
      exact ⟨[], xs, rfl, hx, by simp⟩
    | false =>
      rw [List.find?_cons_of_neg _ (by simp [hx])] at h
      obtain ⟨l1, l2, rfl, hpa, hl1⟩ := ih h
      refine ⟨x :: l1, l2, rfl, hpa, ?_⟩
      intro b hb
      rcases List.mem_cons.mp hb with rfl | hb
      · exact hx
      · exact hl1 b hb

/-- Helper: inversion of a successful `curate` run. -/
theorem curate_ok_inv {recs : List ContentRecord} {cfg : CurationConfig} {now : ℚ}
    {t : String} {out : CurationOutput} (h : curate recs cfg now t = .ok out) :
    ∃ cur ns lr fw, processRecords cfg now recs = .ok (cur, ns, lr, fw) ∧
      out = assembleOutput recs.length cfg t cur ns lr fw := by
  unfold curate at h
  cases hpr : processRecords cfg now recs with
  | error e => rw [hpr] at h; cases h
  | ok v =>
    obtain ⟨cur, ns, lr, fw⟩ := v
    rw [hpr] at h
    cases h
    exact ⟨cur, ns, lr, fw, rfl, rfl⟩

/-- C1.  Noise check first: whenever any configured noise keyword phrase
occurs in the lowercased combined title-and-body text, `classify_item`
returns the noise classification built from the first such phrase in
configured order (is_noise true, filter_reason "noise_keyword: <phrase>",
relevance_score 0, no primary topic), regardless of any topic keywords in
the text. -/
theorem noise_keyword_short_circuits (r : ContentRecord)
    (h : ∃ kw ∈ NOISE_KEYWORDS, occursIn (lowerStr kw) (classifyText r) = true) :
    ∃ kw l1 l2, NOISE_KEYWORDS = l1 ++ kw :: l2 ∧
      occursIn (lowerStr kw) (classifyText r) = true ∧
      (∀ kw2 ∈ l1, occursIn (lowerStr kw2) (classifyText r) = false) ∧
      classify_item r = noiseClassification ("noise_keyword: " ++ kw) ∧
      (classify_item r).is_noise = true ∧
      (classify_item r).relevance_score = 0 ∧
      (classify_item r).primary_topic = none ∧
      (classify_item r).filter_reason = some ("noise_keyword: " ++ kw) := by
  have hsome : (NOISE_KEYWORDS.find? (fun kw => occursIn (lowerStr kw) (classifyText r))).isSome := by
    rw [List.find?_isSome]
    obtain ⟨kw, hmem, hocc⟩ := h
    exact ⟨kw, hmem, hocc⟩
  obtain ⟨kw, hkw⟩ := Option.isSome_iff_exists.mp hsome
  have hhit : noiseHit r = some kw := hkw
  obtain ⟨l1, l2, hsplit, hocc, hmiss⟩ := find?_eq_some_split hkw
  have hcl : classify_item r = noiseClassification ("noise_keyword: " ++ kw) := by
    unfold classify_item
    rw [hhit]
  exact ⟨kw, l1, l2, hsplit, hocc, hmiss, hcl, by rw [hcl]; rfl, by rw [hcl]; rfl,
    by rw [hcl]; rfl, by rw [hcl]; rfl⟩

theorem noise_keyword_short_circuits_witness :
    ∃ kw l1 l2, NOISE_KEYWORDS = l1 ++ kw :: l2 ∧
      occursIn (lowerStr kw) (classifyText c1rec) = true ∧
      (∀ kw2 ∈ l1, occursIn (lowerStr kw2) (classifyText c1rec) = false) ∧
      classify_item c1rec = noiseClassification ("noise_keyword: " ++ kw) ∧
      (classify_item c1rec).is_noise = true ∧
      (classify_item c1rec).relevance_score = 0 ∧
      (classify_item c1rec).primary_topic = none ∧
      (classify_item c1rec).filter_reason = some ("noise_keyword: " ++ kw) :=
  noise_keyword_short_circuits c1rec ⟨"grammar", by decide, by decide⟩

/-- C2.  The quality tier stored by `calculate_engagement_quality` is the
specification decision table applied to the unrounded engagement ratio and
velocity (first part), and the embedded tier function agrees with the
specification table on every input (second part) — in particular it is a
pure deterministic function of (likes, ratio, is_flamewar, velocity). -/
theorem quality_tier_matches_spec :
    (∀ item now, (calculate_engagement_quality item now).quality_tier =
      qualityTierSpec (pyLikes item) (rawEngagementRatio item) (isFlamewarOf item)
        (rawVelocity item now)) ∧
    (∀ likes ratio fw velocity, calculate_quality_tier likes ratio fw velocity =
      qualityTierSpec likes ratio fw velocity) :=
  ⟨fun _ _ => rfl, fun _ _ _ _ => rfl⟩

/-- C7.  With the wall-clock reference fixed by the input, every output
field except the `curated_at` stamp is independent of the timestamp the
header is stamped with: two runs on identical records and configuration
agree everywhere once `curated_at` is blanked. -/
theorem curate_deterministic_up_to_timestamp (recs : List ContentRecord)
    (cfg : CurationConfig) (now : ℚ) (t1 t2 : String) :
    eraseTs (curate recs cfg now t1) = eraseTs (curate recs cfg now t2) := by
  unfold curate
  cases hpr : processRecords cfg now recs with
  | error e => rfl
  | ok v =>
    obtain ⟨cur, ns, lr, fw⟩ := v
    rfl

/-- Helper: `round` is monotone on ℚ. -/
theorem round_le_round_q {x y : ℚ} (h : x ≤ y) : round x ≤ round y := by
  rw [round_eq, round_eq]
  exact Int.floor_le_floor (by linarith)

/-- Helper: `pyRound` keeps non-negative values non-negative. -/
theorem pyRound_nonneg {x : ℚ} (d : ℕ) (h : 0 ≤ x) : 0 ≤ pyRound x d := by
  unfold pyRound
  apply div_nonneg _ (by positivity)
  have h2 : (round (0:ℚ) : ℤ) ≤ round (x * 10 ^ d) := round_le_round_q (by positivity)
  rw [round_zero] at h2
  exact_mod_cast h2

/-- Helper: `pyRound` keeps values at most one at most one. -/
theorem pyRound_le_one {x : ℚ} (d : ℕ) (h : x ≤ 1) : pyRound x d ≤ 1 := by
  unfold pyRound
  rw [div_le_one (by positivity)]
  have h2 : round (x * 10 ^ d) ≤ round (((10 ^ d : ℕ) : ℚ)) := by
    apply round_le_round_q
    push_cast
    nlinarith [pow_pos (show (0:ℚ) < 10 by norm_num) d]
  rw [round_natCast] at h2
  exact_mod_cast h2

/-- Helper: every per-topic weighted score is non-negative (raw scores are
naturals and every configured topic weight is non-negative). -/
theorem topicScores_weight_nonneg (r : ContentRecord) :
    ∀ q ∈ topicScoresOf r, 0 ≤ q.2.weighted_score := by
  have hw : ∀ p ∈ AI_TOPICS, 0 ≤ p.2.weight := by decide
  intro q hq
  unfold topicScoresOf at hq
  rw [List.mem_filterMap] at hq
  obtain ⟨p, hp, hq⟩ := hq
  dsimp only at hq
  split at hq
  · cases hq
    exact mul_nonneg (by positivity) (hw p hp)
  · cases hq

/-- C6.  For a record that passes the noise check and matches at least one
topic, the stored relevance score is `min(total weighted score / 10, 1)`
rounded to two decimals; and for every record (noise included) the stored
relevance score lies in [0, 1]. -/
theorem relevance_score_formula_and_bounds :
    (∀ r, noiseHit r = none → topicScoresOf r ≠ [] →
      (classify_item r).relevance_score =
        pyRound (min (((topicScoresOf r).map (fun q => q.2.weighted_score)).sum / 10) 1) 2) ∧
    (∀ r, 0 ≤ (classify_item r).relevance_score ∧ (classify_item r).relevance_score ≤ 1) := by
  constructor
  · intro r h1 h2
    unfold classify_item
    rw [h1]
    cases h3 : topicScoresOf r with
    | nil => exact absurd h3 h2
    | cons p rest => rfl
  · intro r
    unfold classify_item
    cases h1 : noiseHit r with
    | some kw => exact ⟨le_refl 0, by norm_num [noiseClassification]⟩
    | none =>
      cases h3 : topicScoresOf r with
      | nil => exact ⟨le_refl 0, by norm_num [noiseClassification]⟩
      | cons p rest =>
        have hnn : 0 ≤ ((p :: rest).map (fun q => q.2.weighted_score)).sum := by
          apply List.sum_nonneg
          intro x hx
          rw [List.mem_map] at hx
          obtain ⟨q, hq, rfl⟩ := hx
          exact topicScores_weight_nonneg r q (h3 ▸ hq)
        constructor
        · exact pyRound_nonneg 2 (le_min (by positivity) (by norm_num))
        · exact pyRound_le_one 2 (min_le_right _ _)

theorem relevance_score_formula_and_bounds_witness :
    (classify_item c6rec).relevance_score =
      pyRound (min (((topicScoresOf c6rec).map (fun q => q.2.weighted_score)).sum / 10) 1) 2 ∧
    0 ≤ (classify_item c6rec).relevance_score ∧ (classify_item c6rec).relevance_score ≤ 1 :=
  ⟨relevance_score_formula_and_bounds.1 c6rec (by decide) (by decide),
   relevance_score_formula_and_bounds.2 c6rec⟩

/-- C8.  Contrary to the no-record-aborts-the-batch property, a record whose
`impressions_likes` field is present but `None` raises an uncaught
`TypeError` inside the editorial synthesis (`_generate_why_matters` reads
the field without the `or 0` guard), aborting the whole batch before any
later record is processed; the same record with the field absent is
defaulted and curated normally. -/
theorem why_matters_crashes_on_present_none_likes :
    curate [c8badrec, c8okrec] ⟨1/5, 25, 8⟩ 0 "ts" = .error "TypeError" ∧
    ∃ out, curate [c8okrec] ⟨1/5, 25, 8⟩ 0 "ts" = .ok out ∧ out.stats.published_items = 1 :=
  ⟨by decide, c8out, by decide, by decide⟩

/-- Helper: scanning an empty pool publishes nothing. -/
theorem publishScan_nil (pc : ℕ) (n : ℕ) (counts : List (String × ℕ)) :
    publishScan pc [] n counts = ([], []) := rfl

/-- Helper: step equation of the publish scan for a hidden low-quality
candidate (low tier, not fresh, topic counter already positive). -/
theorem publishScan_cons_reject {item : CuratedItem} {counts : List (String × ℕ)}
    (pc : ℕ) (rest : List CuratedItem) (n : ℕ)
    (hlow : item.engagement_quality.quality_tier = "low")
    (hstale : ¬(item.engagement_quality.hours_old < 4 ∨ lookupCount counts (topicOf item) = 0)) :
    publishScan pc (item :: rest) n counts =
      ((publishScan pc rest n counts).1,
       { title := pyGetTitle item.record,
         reason := some (lowQualityReason item.engagement_quality.hours_old (topicOf item)
           (lookupCount counts (topicOf item))) } :: (publishScan pc rest n counts).2) := by
  simp only [publishScan]
  rw [if_pos ⟨hlow, hstale⟩]

/-- Helper: step equation of the publish scan for an admitted candidate
(any tier except a stale, non-gap-filling low one), including the break
check after the admission. -/
theorem publishScan_cons_accept {item : CuratedItem} {counts : List (String × ℕ)}
    (pc : ℕ) (rest : List CuratedItem) (n : ℕ)
    (h : ¬(item.engagement_quality.quality_tier = "low" ∧
      ¬(item.engagement_quality.hours_old < 4 ∨ lookupCount counts (topicOf item) = 0))) :
    publishScan pc (item :: rest) n counts =
      if n + 1 ≥ pc then ([item], [])
      else (item :: (publishScan pc rest (n + 1) (incrCount counts (topicOf item))).1,
            (publishScan pc rest (n + 1) (incrCount counts (topicOf item))).2) := by
  simp only [publishScan]
  rw [if_neg h]

/-- Helper: the number of already-published items plus the number the scan
still admits never passes `publish_count`, as long as the scan starts below
it. -/
theorem publishScan_length_le (pc : ℕ) :
    ∀ (pool : List CuratedItem) (n : ℕ) (counts : List (String × ℕ)), n < pc →
      n + (publishScan pc pool n counts).1.length ≤ pc := by
  intro pool
  induction pool with
  | nil =>
    intro n counts h
    simp only [publishScan_nil, List.length_nil]
    omega
  | cons item rest ih =>
    intro n counts h
    by_cases hrej : item.engagement_quality.quality_tier = "low" ∧
        ¬(item.engagement_quality.hours_old < 4 ∨ lookupCount counts (topicOf item) = 0)
    · rw [publishScan_cons_reject pc rest n hrej.1 hrej.2]
      simpa using ih n counts h
    · rw [publishScan_cons_accept pc rest n hrej]
      by_cases hge : n + 1 ≥ pc
      · rw [if_pos hge]
        simp only [List.length_cons, List.length_nil]
        omega
      · rw [if_neg hge]
        have h2 := ih (n + 1) (incrCount counts (topicOf item)) (by omega)
        simp only [List.length_cons]
        omega

/-- C5 (amended).  The pool never exceeds `pool_size`; whenever
`publish_count ≥ 1` the published set never exceeds `publish_count`; and
the scan stops right when an admission reaches `publish_count`, discarding
the remaining pool items.  (As stated the claim fails at
`publish_count = 0`, see the counterexample.) -/
theorem publish_and_pool_bounds :
    (∀ recs cfg now t out, curate recs cfg now t = .ok out →
      out.pool_items.length ≤ cfg.pool_size ∧
      (1 ≤ cfg.publish_count → out.published_items.length ≤ cfg.publish_count)) ∧
    (∀ pc (item : CuratedItem) rest n counts,
      ¬(item.engagement_quality.quality_tier = "low" ∧
        ¬(item.engagement_quality.hours_old < 4 ∨ lookupCount counts (topicOf item) = 0)) →
      n + 1 ≥ pc → publishScan pc (item :: rest) n counts = ([item], [])) := by
  constructor
  · intro recs cfg now t out h
    obtain ⟨cur, ns, lr, fw, hpr, rfl⟩ := curate_ok_inv h
    constructor
    · simp only [assembleOutput]
      exact List.length_take_le cfg.pool_size (List.insertionSort keyLE cur)
    · intro hpc
      have h2 := publishScan_length_le cfg.publish_count
        ((List.insertionSort keyLE cur).take cfg.pool_size) 0 [] (by omega)
      simpa [assembleOutput] using h2
  · intro pc item rest n counts haccept hge
    rw [publishScan_cons_accept pc rest n haccept, if_pos hge]

theorem publish_and_pool_bounds_witness :
    c5wout.pool_items.length ≤ 25 ∧ c5wout.published_items.length ≤ 8 := by
  have h := publish_and_pool_bounds.1 [c5rec] ⟨1/5, 25, 8⟩ 0 "ts" c5wout (by decide)
  exact ⟨h.1, h.2 (by norm_num)⟩

/-- C5 counterexample.  With the non-negative configuration
`publish_count = 0` the scan still publishes one item, because the source
checks `len(published) >= publish_count` only after appending: the claimed
bound `len(published_items) <= publish_count` is violated. -/
theorem publish_count_zero_overflow :
    ∃ out, curate [c5rec] ⟨1/5, 25, 0⟩ 0 "ts" = .ok out ∧
      ¬(out.published_items.length ≤ (0 : ℕ)) :=
  ⟨c5zout, by decide, by decide⟩

/-- Helper: a noise classification always records a filter reason. -/
theorem classify_noise_filter_reason (r : ContentRecord)
    (h : (classify_item r).is_noise = true) :
    (classify_item r).filter_reason.isSome = true := by
  unfold classify_item at h ⊢
  cases h1 : noiseHit r with
  | some kw => rfl
  | none =>
    rw [h1] at h
    cases h2 : topicScoresOf r with
    | nil => rfl
    | cons p rest => rw [h2] at h; simp at h

/-- Helper: shape of the three per-record buckets — noise entries carry a
reason, flamewar and low-relevance entries are title-only. -/
theorem processRecords_bucket_reasons (cfg : CurationConfig) (now : ℚ) :
    ∀ (recs : List ContentRecord) cur ns lr fw,
      processRecords cfg now recs = .ok (cur, ns, lr, fw) →
      (∀ e ∈ ns, e.reason.isSome = true) ∧ (∀ e ∈ lr, e.reason = none) ∧
      (∀ e ∈ fw, e.reason = none) := by
  intro recs
  induction recs with
  | nil =>
    intro cur ns lr fw h
    simp only [processRecords] at h
    cases h
    simp
  | cons r rest ih =>
    intro cur ns lr fw h
    simp only [processRecords] at h
    by_cases hnoise : (classify_item r).is_noise
    · rw [if_pos hnoise] at h
      cases hrec : processRecords cfg now rest with
      | error e => rw [hrec] at h; cases h
      | ok v =>
        obtain ⟨cur2, ns2, lr2, fw2⟩ := v
        rw [hrec] at h
        cases h
        obtain ⟨h1, h2, h3⟩ := ih _ _ _ _ hrec
        refine ⟨?_, h2, h3⟩
        intro e he
        rcases List.mem_cons.mp he with rfl | he
        · exact classify_noise_filter_reason r hnoise
        · exact h1 e he
    · rw [if_neg hnoise] at h
      by_cases hflame : (calculate_engagement_quality r now).quality_tier = "skip_flamewar"
      · rw [if_pos hflame] at h
        cases hrec : processRecords cfg now rest with
        | error e => rw [hrec] at h; cases h
        | ok v =>
          obtain ⟨cur2, ns2, lr2, fw2⟩ := v
          rw [hrec] at h
          cases h
          obtain ⟨h1, h2, h3⟩ := ih _ _ _ _ hrec
          refine ⟨h1, h2, ?_⟩
          intro e he
          rcases List.mem_cons.mp he with rfl | he
          · rfl
          · exact h3 e he
      · rw [if_neg hflame] at h
        by_cases hrel : (classify_item r).relevance_score < cfg.min_relevance
        · rw [if_pos hrel] at h
          cases hrec : processRecords cfg now rest with
          | error e => rw [hrec] at h; cases h
          | ok v =>
            obtain ⟨cur2, ns2, lr2, fw2⟩ := v
            rw [hrec] at h
            cases h
            obtain ⟨h1, h2, h3⟩ := ih _ _ _ _ hrec
            refine ⟨h1, ?_, h3⟩
            intro e he
            rcases List.mem_cons.mp he with rfl | he
            · rfl
            · exact h2 e he
        · rw [if_neg hrel] at h
          cases hed : generate_editorial r (classify_item r) (calculate_engagement_quality r now) with
          | error msg => rw [hed] at h; cases h
          | ok ed =>
            rw [hed] at h
            cases hrec : processRecords cfg now rest with
            | error e => rw [hrec] at h; cases h
            | ok v =>
              obtain ⟨cur2, ns2, lr2, fw2⟩ := v
              rw [hrec] at h
              cases h
              exact ih _ _ _ _ hrec

/-- Helper: every hidden-low-quality entry the publish scan emits carries a
diagnostic reason. -/
theorem publishScan_bucket_reasons (pc : ℕ) :
    ∀ pool n counts, ∀ e ∈ (publishScan pc pool n counts).2, e.reason.isSome = true := by
  intro pool
  induction pool with
  | nil =>
    intro n counts e he
    simp [publishScan_nil] at he
  | cons item rest ih =>
    intro n counts e he
    by_cases hrej : item.engagement_quality.quality_tier = "low" ∧
        ¬(item.engagement_quality.hours_old < 4 ∨ lookupCount counts (topicOf item) = 0)
    · rw [publishScan_cons_reject pc rest n hrej.1 hrej.2] at he
      rcases List.mem_cons.mp he with rfl | he
      · rfl
      · exact ih n counts e he
    · rw [publishScan_cons_accept pc rest n hrej] at he
      by_cases hge : n + 1 ≥ pc
      · rw [if_pos hge] at he
        simp at he
      · rw [if_neg hge] at he
        exact ih (n + 1) (incrCount counts (topicOf item)) e he

/-- C9 (amended).  In every successful run, every noise and
low-quality-hidden entry carries a reason, while the flamewar and
low-relevance buckets store title-only entries with no reason field — the
claim that all four buckets store {title, reason} fails for the latter
two. -/
theorem filtered_buckets_reason_shape (recs : List ContentRecord) (cfg : CurationConfig)
    (now : ℚ) (t : String) (out : CurationOutput) (h : curate recs cfg now t = .ok out) :
    (∀ e ∈ out.filtered_out.noise, e.reason.isSome = true) ∧
    (∀ e ∈ out.filtered_out.low_quality_hidden, e.reason.isSome = true) ∧
    (∀ e ∈ out.filtered_out.flamewar, e.reason = none) ∧
    (∀ e ∈ out.filtered_out.low_relevance, e.reason = none) := by
  obtain ⟨cur, ns, lr, fw, hpr, rfl⟩ := curate_ok_inv h
  obtain ⟨h1, h2, h3⟩ := processRecords_bucket_reasons cfg now recs cur ns lr fw hpr
  refine ⟨by simpa [assembleOutput] using h1, ?_,
    by simpa [assembleOutput] using h3, by simpa [assembleOutput] using h2⟩
  intro e he
  simp only [assembleOutput] at he
  exact publishScan_bucket_reasons cfg.publish_count _ 0 [] e he

/-- C9 counterexample.  The flamewar bucket of a concrete run holds an entry
with no reason, refuting the claim that every bucket entry contains both a
title and a reason. -/
theorem flamewar_entry_lacks_reason :
    ∃ out, curate [c9rec] ⟨1/5, 25, 8⟩ 0 "ts" = .ok out ∧
      ∃ e ∈ out.filtered_out.flamewar, e.reason = none :=
  ⟨c9out, by decide, { title := some "gpt debate", reason := none }, by decide, rfl⟩

theorem filtered_buckets_reason_shape_witness :
    (∀ e ∈ c9wout.filtered_out.noise, e.reason.isSome = true) ∧
    (∀ e ∈ c9wout.filtered_out.low_quality_hidden, e.reason.isSome = true) ∧
    (∀ e ∈ c9wout.filtered_out.flamewar, e.reason = none) ∧
    (∀ e ∈ c9wout.filtered_out.low_relevance, e.reason = none) :=
  filtered_buckets_reason_shape c9wrecs ⟨1/5, 25, 8⟩ 0 "ts" c9wout (by decide)

/-- Helper: bumping a topic counter raises exactly that topic's count by
one. -/
theorem lookupCount_incrCount (counts : List (String × ℕ)) (k : String) :
    lookupCount (incrCount counts k) k = lookupCount counts k + 1 := by
  induction counts with
  | nil => simp [incrCount, lookupCount, List.find?]
  | cons p rest ih =>
    by_cases h : p.1 = k
    · simp [incrCount, h, lookupCount, List.find?]
    · simp only [incrCount, if_neg h, lookupCount]
      rw [List.find?_cons_of_neg _ (by simp [h]), List.find?_cons_of_neg _ (by simp [h])]
      exact ih

/-- C4.  A low-tier pool candidate is admitted exactly when it is fresh
(hours_old < 4) or its topic counter is still 0 at the moment it is
examined; otherwise it lands in the low_quality_hidden bucket with a
diagnostic reason and the counters stay untouched.  In particular, of two
stale low-tier items of the same previously-unseen topic, the first is
admitted and the second is hidden. -/
theorem low_tier_publish_gate :
    (∀ pc (item : CuratedItem) rest n counts,
      item.engagement_quality.quality_tier = "low" →
      (¬(item.engagement_quality.hours_old < 4 ∨ lookupCount counts (topicOf item) = 0) →
        publishScan pc (item :: rest) n counts =
          ((publishScan pc rest n counts).1,
           { title := pyGetTitle item.record,
             reason := some (lowQualityReason item.engagement_quality.hours_old (topicOf item)
               (lookupCount counts (topicOf item))) } :: (publishScan pc rest n counts).2)) ∧
      ((item.engagement_quality.hours_old < 4 ∨ lookupCount counts (topicOf item) = 0) →
        publishScan pc (item :: rest) n counts =
          if n + 1 ≥ pc then ([item], [])
          else (item :: (publishScan pc rest (n + 1) (incrCount counts (topicOf item))).1,
                (publishScan pc rest (n + 1) (incrCount counts (topicOf item))).2))) ∧
    (∀ pc (a b : CuratedItem) rest n counts,
      a.engagement_quality.quality_tier = "low" →
      b.engagement_quality.quality_tier = "low" →
      ¬(a.engagement_quality.hours_old < 4) → ¬(b.engagement_quality.hours_old < 4) →
      topicOf b = topicOf a → lookupCount counts (topicOf a) = 0 → n + 1 < pc →
      publishScan pc (a :: b :: rest) n counts =
        (a :: (publishScan pc rest (n + 1) (incrCount counts (topicOf a))).1,
         { title := pyGetTitle b.record,
           reason := some (lowQualityReason b.engagement_quality.hours_old (topicOf a)
             (lookupCount counts (topicOf a) + 1)) }
           :: (publishScan pc rest (n + 1) (incrCount counts (topicOf a))).2)) := by
  constructor
  · intro pc item rest n counts hlow
    constructor
    · intro hstale
      exact publishScan_cons_reject pc rest n hlow hstale
    · intro hok
      rw [publishScan_cons_accept pc rest n (fun hc => hc.2 hok)]
  · intro pc a b rest n counts ha hb haf hbf htopic hcnt hlt
    rw [publishScan_cons_accept pc (b :: rest) n (fun hc => hc.2 (Or.inr hcnt))]
    rw [if_neg (by omega)]
    rw [publishScan_cons_reject pc rest (n + 1) hb (by
      rw [htopic]
      rintro (hfresh | hzero)
      · exact hbf hfresh
      · rw [lookupCount_incrCount, hcnt] at hzero
        omega)]
    rw [htopic, lookupCount_incrCount, hcnt]

theorem low_tier_publish_gate_witness :
    publishScan 8 [c4item, c4item] 0 [] =
      (c4item :: (publishScan 8 [] 1 (incrCount [] (topicOf c4item))).1,
       { title := pyGetTitle c4item.record,
         reason := some (lowQualityReason c4item.engagement_quality.hours_old (topicOf c4item)
           (lookupCount [] (topicOf c4item) + 1)) }
         :: (publishScan 8 [] 1 (incrCount [] (topicOf c4item))).2) :=
  low_tier_publish_gate.2 8 c4item c4item [] 0 [] rfl rfl (by decide) (by decide)
    rfl rfl (by omega)

/-- Helper: items with equal sort keys compare `keyLE` both ways. -/
theorem keyLE_of_key_eq {a b : CuratedItem} (h : sort_key a = sort_key b) : keyLE a b := by
  unfold keyLE
  exact Or.inr ⟨by rw [h], Or.inr ⟨by rw [h], le_of_eq (by rw [h])⟩⟩

/-- Helper: inserting an element of a key class puts it in front of the
class (every element it walks past compares strictly below it). -/
theorem filter_orderedInsert_pos (p : CuratedItem → Bool) (a : CuratedItem)
    (l : List CuratedItem) (hpa : p a = true) (hkey : ∀ b, p b = true → keyLE a b) :
    (List.orderedInsert keyLE a l).filter p = a :: l.filter p := by
  induction l with
  | nil => simp [List.orderedInsert, hpa]
  | cons b bs ih =>
    rw [List.orderedInsert]
    by_cases hr : keyLE a b
    · rw [if_pos hr]
      simp [List.filter_cons, hpa]
    · rw [if_neg hr]
      have hpb : p b = false := by
        cases hpb : p b with
        | false => rfl
        | true => exact absurd (hkey b hpb) hr
      simp [List.filter_cons, hpb, ih]

/-- Helper: inserting an element outside a key class leaves the class
unchanged. -/
theorem filter_orderedInsert_neg (p : CuratedItem → Bool) (a : CuratedItem)
    (l : List CuratedItem) (hpa : p a = false) :
    (List.orderedInsert keyLE a l).filter p = l.filter p := by
  induction l with
  | nil => simp [List.orderedInsert, hpa]
  | cons b bs ih =>
    rw [List.orderedInsert]
    by_cases hr : keyLE a b
    · rw [if_pos hr]
      simp [List.filter_cons, hpa]
    · rw [if_neg hr]
      simp [List.filter_cons, ih]

/-- Helper: stability of the global sort — restricted to any class of
pairwise-`keyLE`-tied elements, the sorted list equals the input list. -/
theorem filter_insertionSort_of_class (p : CuratedItem → Bool)
    (hp : ∀ a b, p a = true → p b = true → keyLE a b) :
    ∀ l : List CuratedItem, (List.insertionSort keyLE l).filter p = l.filter p := by
  intro l
  induction l with
  | nil => rfl
  | cons a l ih =>
    rw [List.insertionSort]
    cases hpa : p a with
    | true =>
      rw [filter_orderedInsert_pos p a _ hpa (fun b hb => hp a b hpa hb), ih]
      simp [List.filter_cons, hpa]
    | false =>
      rw [filter_orderedInsert_neg p a _ hpa, ih]
      simp [List.filter_cons, hpa]

/-- C3.  The pool handed to the publish scan is the `pool_size`-prefix of
the survivors stably sorted by the lexicographic key
`(tier, priority, -velocity*depth)`: the sorted list (hence the pool) is
ascending under `keyLE`, and elements whose key tuples coincide keep their
input order (the filter to any key class is unchanged by the sort). -/
theorem pool_sorted_and_stable (recs : List ContentRecord) (cfg : CurationConfig)
    (now : ℚ) (t : String) (out : CurationOutput) (h : curate recs cfg now t = .ok out) :
    ∃ cur ns lr fw, processRecords cfg now recs = .ok (cur, ns, lr, fw) ∧
      out.pool_items = (List.insertionSort keyLE cur).take cfg.pool_size ∧
      List.Sorted keyLE (List.insertionSort keyLE cur) ∧
      List.Sorted keyLE out.pool_items ∧
      (∀ k, (List.insertionSort keyLE cur).filter (fun x => decide (sort_key x = k)) =
        cur.filter (fun x => decide (sort_key x = k))) := by
  obtain ⟨cur, ns, lr, fw, hpr, rfl⟩ := curate_ok_inv h
  have hs := List.sorted_insertionSort keyLE cur
  refine ⟨cur, ns, lr, fw, hpr, by simp [assembleOutput], hs, ?_, ?_⟩
  · simp only [assembleOutput]
    exact List.Pairwise.sublist (List.take_sublist _ _) hs
  · intro k
    apply filter_insertionSort_of_class
    intro a b hpa hpb
    exact keyLE_of_key_eq ((of_decide_eq_true hpa).trans (of_decide_eq_true hpb).symm)

theorem pool_sorted_and_stable_witness :
    ∃ cur ns lr fw, processRecords ⟨1/5, 25, 8⟩ 0 c3recs = .ok (cur, ns, lr, fw) ∧
      c3out.pool_items = (List.insertionSort keyLE cur).take 25 ∧
      List.Sorted keyLE (List.insertionSort keyLE cur) ∧
      List.Sorted keyLE c3out.pool_items ∧
      (∀ k, (List.insertionSort keyLE cur).filter (fun x => decide (sort_key x = k)) =
        cur.filter (fun x => decide (sort_key x = k))) :=
  pool_sorted_and_stable c3recs ⟨1/5, 25, 8⟩ 0 "ts" c3out (by decide)

/-- Helper: the funnel loop puts every input record in exactly one place —
survivors or one of the three per-record buckets. -/
theorem processRecords_length (cfg : CurationConfig) (now : ℚ) :
    ∀ (recs : List ContentRecord) cur ns lr fw,
      processRecords cfg now recs = .ok (cur, ns, lr, fw) →
      recs.length = cur.length + ns.length + lr.length + fw.length := by
  intro recs
  induction recs with
  | nil =>
    intro cur ns lr fw h
    simp only [processRecords] at h
    cases h
    simp
  | cons r rest ih =>
    intro cur ns lr fw h
    simp only [processRecords] at h
    by_cases hnoise : (classify_item r).is_noise
    · rw [if_pos hnoise] at h
      cases hrec : processRecords cfg now rest with
      | error e => rw [hrec] at h; cases h
      | ok v =>
        obtain ⟨cur2, ns2, lr2, fw2⟩ := v
        rw [hrec] at h
        cases h
        have := ih _ _ _ _ hrec
        simp only [List.length_cons]
        omega
    · rw [if_neg hnoise] at h
      by_cases hflame : (calculate_engagement_quality r now).quality_tier = "skip_flamewar"
      · rw [if_pos hflame] at h
        cases hrec : processRecords cfg now rest with
        | error e => rw [hrec] at h; cases h
        | ok v =>
          obtain ⟨cur2, ns2, lr2, fw2⟩ := v
          rw [hrec] at h
          cases h
          have := ih _ _ _ _ hrec
          simp only [List.length_cons]
          omega
      · rw [if_neg hflame] at h
        by_cases hrel : (classify_item r).relevance_score < cfg.min_relevance
        · rw [if_pos hrel] at h
          cases hrec : processRecords cfg now rest with
          | error e => rw [hrec] at h; cases h
          | ok v =>
            obtain ⟨cur2, ns2, lr2, fw2⟩ := v
            rw [hrec] at h
            cases h
            have := ih _ _ _ _ hrec
            simp only [List.length_cons]
            omega
        · rw [if_neg hrel] at h
          cases hed : generate_editorial r (classify_item r) (calculate_engagement_quality r now) with
          | error msg => rw [hed] at h; cases h
          | ok ed =>
            rw [hed] at h
            cases hrec : processRecords cfg now rest with
            | error e => rw [hrec] at h; cases h
            | ok v =>
              obtain ⟨cur2, ns2, lr2, fw2⟩ := v
              rw [hrec] at h
              cases h
              have := ih _ _ _ _ hrec
              simp only [List.length_cons]
              omega

/-- Helper: the published list is a sublist of the scanned pool. -/
theorem publishScan_sublist (pc : ℕ) :
    ∀ pool n counts, List.Sublist (publishScan pc pool n counts).1 pool := by
  intro pool
  induction pool with
  | nil => intro n counts; simp [publishScan_nil]
  | cons item rest ih =>
    intro n counts
    by_cases hrej : item.engagement_quality.quality_tier = "low" ∧
        ¬(item.engagement_quality.hours_old < 4 ∨ lookupCount counts (topicOf item) = 0)
    · rw [publishScan_cons_reject pc rest n hrej.1 hrej.2]
      exact .cons _ (ih n counts)
    · rw [publishScan_cons_accept pc rest n hrej]
      by_cases hge : n + 1 ≥ pc
      · rw [if_pos hge]
        exact .cons₂ _ (List.nil_sublist rest)
      · rw [if_neg hge]
        exact .cons₂ _ (ih (n + 1) (incrCount counts (topicOf item)))

/-- Helper: admitted plus hidden items never outnumber the scanned pool
(the scan can stop early and silently drop the tail). -/
theorem publishScan_total_le (pc : ℕ) :
    ∀ pool n counts,
      (publishScan pc pool n counts).2.length + (publishScan pc pool n counts).1.length ≤
        pool.length := by
  intro pool
  induction pool with
  | nil => intro n counts; simp [publishScan_nil]
  | cons item rest ih =>
    intro n counts
    by_cases hrej : item.engagement_quality.quality_tier = "low" ∧
        ¬(item.engagement_quality.hours_old < 4 ∨ lookupCount counts (topicOf item) = 0)
    · rw [publishScan_cons_reject pc rest n hrej.1 hrej.2]
      have := ih n counts
      simp only [List.length_cons]
      omega
    · rw [publishScan_cons_accept pc rest n hrej]
      by_cases hge : n + 1 ≥ pc
      · rw [if_pos hge]
        simp only [List.length_cons, List.length_nil]
        omega
      · rw [if_neg hge]
        have := ih (n + 1) (incrCount counts (topicOf item))
        simp only [List.length_cons]
        omega

/-- Helper: an item found in a bucket of `assocAppend` comes from the old
accumulator or is the appended item. -/
theorem assocAppend_mem (acc : List (String × List CuratedItem)) (k : String)
    (it : CuratedItem) {lbl : String} {l : List CuratedItem}
    (h : (lbl, l) ∈ assocAppend acc k it) :
    ∀ x ∈ l, (∃ l0, (lbl, l0) ∈ acc ∧ x ∈ l0) ∨ x = it := by
  induction acc with
  | nil =>
    simp only [assocAppend, List.mem_singleton] at h
    cases h
    intro x hx
    simp only [List.mem_singleton] at hx
    exact Or.inr hx
  | cons p rest ih =>
    simp only [assocAppend] at h
    by_cases hk : p.1 = k
    · rw [if_pos hk] at h
      rcases List.mem_cons.mp h with heq | hmem
      · cases heq
        intro x hx
        rcases List.mem_append.mp hx with hx | hx
        · exact Or.inl ⟨p.2, by simp, hx⟩
        · simp only [List.mem_singleton] at hx
          exact Or.inr hx
      · intro x hx
        exact Or.inl ⟨l, List.mem_cons_of_mem p hmem, hx⟩
    · rw [if_neg hk] at h
      rcases List.mem_cons.mp h with heq | hmem
      · intro x hx
        exact Or.inl ⟨l, heq ▸ List.mem_cons_self p rest, hx⟩
      · intro x hx
        rcases ih hmem x hx with h2 | h2
        · obtain ⟨l0, hl0, hx0⟩ := h2
          exact Or.inl ⟨l0, List.mem_cons_of_mem p hl0, hx0⟩
        · exact Or.inr h2

/-- Helper: an item found in the theme-bucketing fold comes from the seed
accumulator or from the folded items. -/
theorem groupFold_mem :
    ∀ (items : List CuratedItem) (acc : List (String × List CuratedItem))
      {lbl : String} {l : List CuratedItem},
      (lbl, l) ∈ items.foldl (fun acc it => assocAppend acc (themeLabel (topicOf it)) it) acc →
      ∀ x ∈ l, (∃ l0, (lbl, l0) ∈ acc ∧ x ∈ l0) ∨ x ∈ items := by
  intro items
  induction items with
  | nil =>
    intro acc lbl l h x hx
    simp only [List.foldl_nil] at h
    exact Or.inl ⟨l, h, hx⟩
  | cons it its ih =>
    intro acc lbl l h x hx
    simp only [List.foldl_cons] at h
    rcases ih _ h x hx with h2 | h2
    · obtain ⟨l0, hl0, hx0⟩ := h2
      rcases assocAppend_mem acc _ it hl0 x hx0 with h3 | h3
      · obtain ⟨l1, hl1, hx1⟩ := h3
        exact Or.inl ⟨l1, hl1, hx1⟩
      · exact Or.inr (by simp [h3])
    · exact Or.inr (List.mem_cons_of_mem it h2)

/-- Helper: every item listed in a theme bucket is one of the grouped
items. -/
theorem group_by_theme_mem (items : List CuratedItem) {lbl : String}
    {l : List CuratedItem} (h : (lbl, l) ∈ group_by_theme items) :
    ∀ x ∈ l, x ∈ items := by
  unfold group_by_theme at h
  rw [List.mem_map] at h
  obtain ⟨p, hp, heq⟩ := h
  injection heq with h1 h2
  subst h1
  subst h2
  intro x hx
  rw [List.mem_insertionSort] at hx
  rcases groupFold_mem items [] hp x hx with h2 | h2
  · obtain ⟨l0, hl0, _⟩ := h2
    simp at hl0
  · exact h2

/-- C10.  A survivor ranked at or past `pool_size` appears nowhere in the
output: the pool is the `pool_size`-prefix of the sorted survivors, the
published list is a sublist of the pool, every theme bucket draws from the
published list, and the buckets account only for the filtered records plus
pool-scan rejects — so the input count can strictly exceed the sum of all
filtered counts plus the pool count, as the concrete run in the second
part shows. -/
theorem dropped_survivors_unaccounted :
    (∀ recs cfg now t out, curate recs cfg now t = .ok out →
      ∃ cur ns lr fw, processRecords cfg now recs = .ok (cur, ns, lr, fw) ∧
        out.stats.input_items =
          out.stats.filtered_noise + out.stats.filtered_low_relevance +
            out.stats.filtered_flamewar + cur.length ∧
        out.pool_items = (List.insertionSort keyLE cur).take cfg.pool_size ∧
        List.Sublist out.published_items out.pool_items ∧
        (∀ lbl l, (lbl, l) ∈ out.themes → ∀ x ∈ l, x ∈ out.published_items) ∧
        out.stats.filtered_low_quality + out.stats.published_items ≤ out.stats.pool_items) ∧
    (∃ recs cfg now t out, curate recs cfg now t = .ok out ∧
      out.stats.filtered_noise + out.stats.filtered_low_relevance +
        out.stats.filtered_flamewar + out.stats.filtered_low_quality +
        out.stats.pool_items < out.stats.input_items) := by
  constructor
  · intro recs cfg now t out h
    obtain ⟨cur, ns, lr, fw, hpr, rfl⟩ := curate_ok_inv h
    refine ⟨cur, ns, lr, fw, hpr, ?_, by simp [assembleOutput], ?_, ?_, ?_⟩
    · have := processRecords_length cfg now recs _ _ _ _ hpr
      simp only [assembleOutput]
      omega
    · simp only [assembleOutput]
      exact publishScan_sublist cfg.publish_count _ 0 []
    · intro lbl l hmem x hx
      simp only [assembleOutput] at hmem ⊢
      exact group_by_theme_mem _ hmem x hx
    · simp only [assembleOutput]
      exact publishScan_total_le cfg.publish_count _ 0 []
  · exact ⟨[c5rec, c5rec], ⟨1/5, 1, 8⟩, 0, "ts", c10out, by decide, by decide⟩

theorem dropped_survivors_unaccounted_witness :
    ∃ cur ns lr fw, processRecords ⟨1/5, 25, 8⟩ 0 [c5rec, c6rec] = .ok (cur, ns, lr, fw) ∧
      c10wout.stats.input_items =
        c10wout.stats.filtered_noise + c10wout.stats.filtered_low_relevance +
          c10wout.stats.filtered_flamewar + cur.length ∧
      c10wout.pool_items = (List.insertionSort keyLE cur).take 25 ∧
      List.Sublist c10wout.published_items c10wout.pool_items ∧
      (∀ lbl l, (lbl, l) ∈ c10wout.themes → ∀ x ∈ l, x ∈ c10wout.published_items) ∧
      c10wout.stats.filtered_low_quality + c10wout.stats.published_items ≤
        c10wout.stats.pool_items :=
  dropped_survivors_unaccounted.1 [c5rec, c6rec] ⟨1/5, 25, 8⟩ 0 "ts" c10wout (by decide)

end Verification
